import Mathlib

/-!
Verification of the slack-my-conversation tool: a shallow embedding of its
timestamp conversions (src/app/utils.py), message post-processing
(src/app/message_handler.py) and Slack API client (src/app/slack_client.py),
together with theorems settling the specified properties. HTTP traffic is
modelled by an explicit transcript of per-request results, the file system
by the outcome an attempted write would have, and the local timezone of
strftime by an explicit offset. Numeric timestamps are modelled at
whole-second integer resolution.
-/

/-- Digit value of an ASCII digit character (its code point minus 48). -/
def digitVal (c : Char) : Nat := c.toNat - 48

/-- Leap-year rule used by Python datetime (proleptic Gregorian). -/
def isLeapYear (y : Nat) : Bool := y % 4 == 0 && (y % 100 != 0 || y % 400 == 0)

/-- Number of days in a month, as validated by the Python datetime
constructor. -/
def daysInMonth (y m : Nat) : Nat :=
  if m = 2 then (if isLeapYear y then 29 else 28)
  else if m = 4 ∨ m = 6 ∨ m = 9 ∨ m = 11 then 30
  else 31

/-- A broken-down wall-clock datetime, the result of a successful strptime. -/
structure Datetime where
  year : Nat
  month : Nat
  day : Nat
  hour : Nat
  minute : Nat
  second : Nat
deriving DecidableEq

/-- Consume one expected literal character. -/
def expectChar (c : Char) : List Char → Option (List Char)
  | x :: rest => if x = c then some rest else none
  | [] => none

/-- Consume one or more whitespace characters (a literal space in an strptime
format string matches a whitespace run). -/
def skipSpaces1 : List Char → Option (List Char)
  | x :: rest => if x.isWhitespace then some (rest.dropWhile Char.isWhitespace) else none
  | [] => none

/-- Consume exactly four digits (the strptime %Y directive). -/
def take4Digits : List Char → Option (Nat × List Char)
  | c1 :: c2 :: c3 :: c4 :: rest =>
    if c1.isDigit && c2.isDigit && c3.isDigit && c4.isDigit then
      some (digitVal c1 * 1000 + digitVal c2 * 100 + digitVal c3 * 10 + digitVal c4, rest)
    else none
  | _ => none

/-- Consume one or two digits, greedily (the two-digit numeric strptime
directives used here are each followed in the format by a non-digit
separator or the end of the string, so greedy matching agrees with the
backtracking regex strptime compiles). -/
def take2Digits : List Char → Option (Nat × List Char)
  | c1 :: c2 :: rest =>
    if c1.isDigit then
      if c2.isDigit then some (digitVal c1 * 10 + digitVal c2, rest)
      else some (digitVal c1, c2 :: rest)
    else none
  | [c1] => if c1.isDigit then some (digitVal c1, []) else none
  | [] => none

/-- Model of datetime.strptime(s, "%Y-%m-%d %H:%M:%S"): a four-digit year,
one-or-two-digit month, day, hour, minute and second, literal separators,
the whole string consumed, and the field ranges checked exactly as the
compiled regex and the datetime constructor check them (year at least 1,
day at least 1 and bounded by the month length, hour below 24, minute and
second below 60). -/
def strptimeYmdHMS (s : String) : Option Datetime := do
  let (y, cs) ← take4Digits s.data
  let cs ← expectChar '-' cs
  let (mo, cs) ← take2Digits cs
  let cs ← expectChar '-' cs
  let (d, cs) ← take2Digits cs
  let cs ← skipSpaces1 cs
  let (h, cs) ← take2Digits cs
  let cs ← expectChar ':' cs
  let (mi, cs) ← take2Digits cs
  let cs ← expectChar ':' cs
  let (sec, cs) ← take2Digits cs
  if cs.isEmpty && 1 ≤ y && 1 ≤ mo && mo ≤ 12 && 1 ≤ d && d ≤ daysInMonth y mo
      && h ≤ 23 && mi ≤ 59 && sec ≤ 59 then
    some ⟨y, mo, d, h, mi, sec⟩
  else none

/-- Days from 1970-01-01 to the civil date y-m-d (proleptic Gregorian). -/
def daysFromCivil (y m d : Nat) : Int :=
  let yy : Int := if m ≤ 2 then (y : Int) - 1 else (y : Int)
  let era : Int := yy.ediv 400
  let yoe : Int := yy - era * 400
  let mp : Int := if m > 2 then (m : Int) - 3 else (m : Int) + 9
  let doy : Int := (153 * mp + 2).ediv 5 + (d : Int) - 1
  let doe : Int := yoe * 365 + yoe.ediv 4 - yoe.ediv 100 + doy
  era * 146097 + doe - 719468

/-- Civil date (year, month, day) of a day count relative to 1970-01-01. -/
def civilFromDays (z0 : Int) : Int × Nat × Nat :=
  let z := z0 + 719468
  let era := z.ediv 146097
  let doe := z - era * 146097
  let yoe := (doe - doe.ediv 1460 + doe.ediv 36524 - doe.ediv 146096).ediv 365
  let y := yoe + era * 400
  let doy := doe - (365 * yoe + yoe.ediv 4 - yoe.ediv 100)
  let mp := (5 * doy + 2).ediv 153
  let d := doy - (153 * mp + 2).ediv 5 + 1
  let m := if mp < 10 then mp + 3 else mp - 9
  (if m ≤ 2 then y + 1 else y, m.toNat, d.toNat)

/-- Epoch seconds of a wall-clock datetime read as UTC: the effect of
dt.replace(tzinfo=UTC).timestamp(). The program only produces whole seconds
here, so the float is modelled as an integer. -/
def timestampUTC (dt : Datetime) : Int :=
  daysFromCivil dt.year dt.month dt.day * 86400
    + (dt.hour * 3600 + dt.minute * 60 + dt.second : Nat)

/-- Model of utils.date_to_timestamp: an input of length exactly 10 gets
" 00:00:00" appended, the result is parsed with strptime
"%Y-%m-%d %H:%M:%S" and the wall-clock value is read as UTC; a parse
failure yields None. -/
def date_to_timestamp (date_str : String) : Option Int :=
  let ds := if date_str.length = 10 then date_str ++ " 00:00:00" else date_str
  (strptimeYmdHMS ds).map timestampUTC

/-- Zero-padded decimal rendering of a datetime, "%Y-%m-%d %H:%M:%S", valid
for years 0 through 9999 (the only years reachable from the inputs the
theorems below use). Every non-separator position is a single digit
character. -/
def formatDatetime (y mo d h mi s : Nat) : String :=
  ⟨[Nat.digitChar (y / 1000 % 10), Nat.digitChar (y / 100 % 10),
    Nat.digitChar (y / 10 % 10), Nat.digitChar (y % 10), '-',
    Nat.digitChar (mo / 10 % 10), Nat.digitChar (mo % 10), '-',
    Nat.digitChar (d / 10 % 10), Nat.digitChar (d % 10), ' ',
    Nat.digitChar (h / 10 % 10), Nat.digitChar (h % 10), ':',
    Nat.digitChar (mi / 10 % 10), Nat.digitChar (mi % 10), ':',
    Nat.digitChar (s / 10 % 10), Nat.digitChar (s % 10)]⟩

/-- Render epoch seconds as local wall-clock time, the effect of
datetime.fromtimestamp(t).strftime("%Y-%m-%d %H:%M:%S"); the local timezone
strftime implicitly uses is made explicit as an offset from UTC in
seconds. -/
def readableOfEpoch (localOffset : Int) (t : Int) : String :=
  let u := t + localOffset
  let days := u.ediv 86400
  let secs := (u.emod 86400).toNat
  let c := civilFromDays days
  formatDatetime c.1.toNat c.2.1 c.2.2 (secs / 3600) (secs / 60 % 60) (secs % 60)

/-- Value of a digit run read as a natural number. -/
def natOfDigits (cs : List Char) : Nat := cs.foldl (fun a c => a * 10 + digitVal c) 0

/-- Model of Python float() acceptance on strings, restricted to finite
decimal literals: surrounding whitespace, an optional sign, digits with an
optional fractional part (at least one digit overall). Exponent notation
and the non-finite literals inf and nan are outside the model. The accepted
value is floored to whole seconds, which is what strftime %S shows of
it. -/
def pyFloatFloor (s : String) : Option Int :=
  let cs := s.data.dropWhile Char.isWhitespace
  let cs := (cs.reverse.dropWhile Char.isWhitespace).reverse
  let signAndRest : Bool × List Char :=
    match cs with
    | '-' :: rest => (true, rest)
    | '+' :: rest => (false, rest)
    | _ => (false, cs)
  let neg := signAndRest.1
  let cs := signAndRest.2
  let intPart := cs.takeWhile Char.isDigit
  let cs2 := cs.dropWhile Char.isDigit
  match cs2 with
  | [] =>
    if intPart.isEmpty then none
    else
      let v : Int := (natOfDigits intPart : Int)
      some (if neg then -v else v)
  | '.' :: rest =>
    let fracPart := rest.takeWhile Char.isDigit
    let rest2 := rest.dropWhile Char.isDigit
    if rest2.isEmpty && !(intPart.isEmpty && fracPart.isEmpty) then
      let scale : Int := ((10 ^ fracPart.length : Nat) : Int)
      let num : Int := ((natOfDigits intPart * 10 ^ fracPart.length + natOfDigits fracPart : Nat) : Int)
      some ((if neg then -num else num).ediv scale)
    else none
  | _ => none

/-- The argument of utils.timestamp_to_readable: a number (modelled at
whole-second resolution) or a string. -/
inductive PyValue where
  | num (seconds : Int)
  | str (s : String)
deriving DecidableEq

/-- Model of utils.timestamp_to_readable: float(value), then
fromtimestamp and strftime; a value that float() rejects is returned
unchanged (str of a string argument is the string itself). -/
def timestamp_to_readable (localOffset : Int) (timestamp : PyValue) : String :=
  match timestamp with
  | .num n => readableOfEpoch localOffset n
  | .str s =>
    match pyFloatFloor s with
    | some n => readableOfEpoch localOffset n
    | none => s

/-- Shape test for a rendered datetime: 19 characters, digits everywhere
except the literal separators of "YYYY-MM-DD HH:MM:SS". -/
def isDatetimeShapeL (cs : List Char) : Bool :=
  match cs with
  | [y1, y2, y3, y4, s1, m1, m2, s2, d1, d2, s3, h1, h2, s4, n1, n2, s5, x1, x2] =>
    y1.isDigit && y2.isDigit && y3.isDigit && y4.isDigit && s1 == '-'
      && m1.isDigit && m2.isDigit && s2 == '-' && d1.isDigit && d2.isDigit
      && s3 == ' ' && h1.isDigit && h2.isDigit && s4 == ':'
      && n1.isDigit && n2.isDigit && s5 == ':' && x1.isDigit && x2.isDigit
  | _ => false

/-- Shape test on a string. -/
def isDatetimeShape (s : String) : Bool := isDatetimeShapeL s.data

/-- A Slack message record; the fields the program reads (a TypedDict with
total=False, so every field may be absent). -/
structure SlackMessage where
  user : Option String
  text : Option String
  ts : Option String
deriving DecidableEq

/-- Model of message_handler.filter_messages_by_user: keep the messages
whose user field is present and equal to the target (dict.get of an absent
key is None, and None never equals a string). -/
def filter_messages_by_user (messages : List SlackMessage) (target_user_id : String) :
    List SlackMessage :=
  messages.filter (fun message => message.user = some target_user_id)

/-- Python truthiness of an optional string: None and the empty string are
falsy. -/
def truthyStr : Option String → Option String
  | some s => if s.isEmpty then none else some s
  | none => none

/-- Outcome of message_handler.save_messages_to_file: the early return with
its notice, a completed write (filename and payload, the payload standing
for the JSON serialization the program writes), or a reported write
failure. The function never raises. -/
inductive SaveOutcome where
  | noSave (notice : String)
  | saved (filename : String) (content : List SlackMessage) (notice : String)
  | failed (notice : String)
deriving DecidableEq

/-- Filename actually opened: the author id and an underscore are prepended
when a truthy author id is given. -/
def effectiveFilename (filename : String) (user_id : Option String) : String :=
  match truthyStr user_id with
  | some u => u ++ "_" ++ filename
  | none => filename

/-- Model of message_handler.save_messages_to_file. The file system is
represented by the outcome the attempted write would have: none for
success, some e for an OSError carrying message e. An empty message list
returns before any write; a failed write is reported once, with no retry
and no exception. -/
def save_messages_to_file (messages : List SlackMessage) (filename : String)
    (user_id : Option String) (writeError : Option String) : SaveOutcome :=
  if messages.isEmpty then SaveOutcome.noSave "保存するメッセージがありません。"
  else
    let fn := effectiveFilename filename user_id
    match writeError with
    | none => SaveOutcome.saved fn messages ("メッセージを " ++ fn ++ " に保存しました。")
    | some e => SaveOutcome.failed ("ファイル保存エラー: " ++ e)

/-- What one HTTP GET produced, as seen past the requests layer: a decoded
JSON body, a requests.RequestException (connection error, timeout, or the
HTTPError raised by raise_for_status), or a json.JSONDecodeError from a
non-JSON body. -/
inductive HttpResult (α : Type) where
  | success (body : α)
  | transportError (e : String)
  | decodeError (e : String)
deriving DecidableEq

/-- One decoded conversations.history response body. -/
structure HistoryPage where
  ok : Bool
  error : Option String
  messages : List SlackMessage
  has_more : Bool
  next_cursor : Option String
deriving DecidableEq

/-- One decoded search.messages response body; matchList is the nested
list the code reads from the messages field under the key matches. -/
structure SearchPage where
  ok : Bool
  error : Option String
  matchList : List SlackMessage
deriving DecidableEq

/-- The SlackAPIError exception: its message, plus the cause installed by
raising from an underlying exception (None when raised bare). -/
structure SlackAPIError where
  message : String
  cause : Option String
deriving DecidableEq

/-- How a client call ends: a returned message list, a raised
SlackAPIError, or the model artifact of a transcript holding fewer
responses than the loop requests (unreachable under the hypotheses of the
theorems below). -/
inductive FetchOutcome where
  | returned (msgs : List SlackMessage)
  | raised (e : SlackAPIError)
  | noResponse
deriving DecidableEq

/-- Truthiness of data.get("response_metadata", \x7b\x7d).get("next_cursor"):
present and non-empty. -/
def cursorTruthy : Option String → Bool
  | some s => !s.isEmpty
  | none => false

/-- The expression data.get("error") or "Unknown error" (Python
or-defaulting: None and the empty string both fall through). -/
def errMsgOf : Option String → String
  | some s => if s.isEmpty then "Unknown error" else s
  | none => "Unknown error"

/-- The while-True loop of SlackClient.get_conversation_history over a
transcript of responses, carrying the all_messages accumulator; returns the
outcome and the number of answered requests. An ok page extends the
accumulator, and the loop continues exactly when get_all is set AND
has_more is truthy AND a truthy next_cursor is present; a page with
ok=false raises after printing the error explanation; transport and decode
failures raise with the cause preserved, discarding the accumulator. -/
def historyLoop (get_all : Bool) :
    List (HttpResult HistoryPage) → List SlackMessage → FetchOutcome × Nat
  | [], _acc => (FetchOutcome.noResponse, 0)
  | HttpResult.transportError e :: _, _acc =>
    (FetchOutcome.raised ⟨"HTTP Error: " ++ e, some e⟩, 1)
  | HttpResult.decodeError e :: _, _acc =>
    (FetchOutcome.raised ⟨"JSON Decode Error: " ++ e, some e⟩, 1)
  | HttpResult.success page :: rest, acc =>
    if page.ok then
      let acc2 := acc ++ page.messages
      if get_all && page.has_more && cursorTruthy page.next_cursor then
        let r := historyLoop get_all rest acc2
        (r.1, r.2 + 1)
      else (FetchOutcome.returned acc2, 1)
    else (FetchOutcome.raised ⟨"Slack API Error: " ++ errMsgOf page.error, none⟩, 1)

/-- Model of SlackClient.get_conversation_history, entered with an empty
accumulator. -/
def get_conversation_history (responses : List (HttpResult HistoryPage))
    (get_all : Bool) : FetchOutcome × Nat :=
  historyLoop get_all responses []

/-- Model of SlackClient.search_user_messages: a single request; an ok body
returns the nested match list, a body with ok=false raises after printing
the error explanation, transport and decode failures raise with the cause
preserved. -/
def search_user_messages (response : HttpResult SearchPage) : FetchOutcome × Nat :=
  match response with
  | HttpResult.success page =>
    if page.ok then (FetchOutcome.returned page.matchList, 1)
    else (FetchOutcome.raised ⟨"Slack Search API Error: " ++ errMsgOf page.error, none⟩, 1)
  | HttpResult.transportError e => (FetchOutcome.raised ⟨"HTTP Error: " ++ e, some e⟩, 1)
  | HttpResult.decodeError e => (FetchOutcome.raised ⟨"JSON Decode Error: " ++ e, some e⟩, 1)

/-- The query parameters get_conversation_history builds before the loop
(slack_client.py lines 64-78): the channel, the limit clamped to 200, and
the optional oldest and latest bounds. -/
structure HistoryParams where
  channel : String
  limit : Int
  oldest : Option Int
  latest : Option Int
deriving DecidableEq

/-- An oldest or latest parameter value as transmitted, if any: the
argument must be truthy AND date_to_timestamp of it must be truthy (a
timestamp of exactly 0 is falsy in Python and is dropped). -/
def boundParam (s : Option String) : Option Int :=
  match truthyStr s with
  | some t =>
    match date_to_timestamp t with
    | some ts => if ts = 0 then none else some ts
    | none => none
  | none => none

/-- Parameter construction of get_conversation_history. -/
def mkHistoryParams (channel_id : String) (limit : Int) (oldest latest : Option String) :
    HistoryParams :=
  { channel := channel_id, limit := min limit 200,
    oldest := boundParam oldest, latest := boundParam latest }

/-- The query parameters search_user_messages builds (slack_client.py lines
144-160). -/
structure SearchParams where
  query : String
  count : Int
  sort : String
  sort_dir : String
deriving DecidableEq

/-- Parameter construction of search_user_messages: the query joins channel
scope, author scope and the optional truthy date bounds with spaces; the
count is clamped to 1000. -/
def mkSearchParams (channel_id user_id : String) (count : Int)
    (after before : Option String) : SearchParams :=
  let parts := ["in:<#" ++ channel_id ++ ">", "from:<@" ++ user_id ++ ">"]
    ++ (match truthyStr after with | some a => ["after:" ++ a] | none => [])
    ++ (match truthyStr before with | some b => ["before:" ++ b] | none => [])
  { query := String.intercalate " " parts, count := min count 1000,
    sort := "timestamp", sort_dir := "desc" }

/-- A digit character produced from a value reduced mod 10 is a digit. -/
theorem isDigit_digitChar_mod (n : Nat) : (Nat.digitChar (n % 10)).isDigit = true := by
  have h : n % 10 < 10 := Nat.mod_lt n (by decide)
  set k := n % 10 with hk
  interval_cases k <;> rfl

/-- The rendering of any datetime has exactly 19 characters. -/
theorem formatDatetime_length (y mo d h mi s : Nat) :
    (formatDatetime y mo d h mi s).length = 19 := rfl

/-- The rendering of any datetime has the YYYY-MM-DD HH:MM:SS shape. -/
theorem isDatetimeShape_format (y mo d h mi s : Nat) :
    isDatetimeShape (formatDatetime y mo d h mi s) = true := by
  simp [isDatetimeShape, isDatetimeShapeL, formatDatetime, isDigit_digitChar_mod]

/-- C5: date_to_timestamp treats a date-only input as midnight (the
10-character input and its explicit midnight form agree), reads the wall
clock as UTC (the result is the known UTC epoch second count of 2025-04-01
midnight), and returns None on an unparseable input instead of raising. -/
theorem date_to_timestamp_spec :
    date_to_timestamp "2025-04-01" = date_to_timestamp "2025-04-01 00:00:00"
    ∧ date_to_timestamp "2025-04-01" = some 1743465600
    ∧ date_to_timestamp "not-a-date" = none :=
  ⟨by decide, by decide, by decide⟩

/-- C9: the date-only branch of date_to_timestamp is selected by string
length alone; every input of exactly 10 characters is evaluated as that
input with " 00:00:00" appended, whatever its shape. -/
theorem date_to_timestamp_len10 (s : String) (h : s.length = 10) :
    date_to_timestamp s = date_to_timestamp (s ++ " 00:00:00") := by
  have h19 : (s ++ " 00:00:00").length = 19 := by
    rw [String.length_append, h]; rfl
  unfold date_to_timestamp
  rw [h, h19]
  simp

/-- Witness for C9 at the 10-character non-date input from the claim. -/
theorem date_to_timestamp_len10_witness :
    ("not-a-date" : String).length = 10
    ∧ date_to_timestamp "not-a-date" = date_to_timestamp ("not-a-date" ++ " 00:00:00")
    ∧ date_to_timestamp "not-a-date" = none :=
  ⟨by decide, date_to_timestamp_len10 "not-a-date" (by decide), by decide⟩

/-- C4: filter_messages_by_user returns exactly the order-preserving
subsequence of messages whose author equals the target (a sublist, whose
members are exactly the matching members of the input, with matching
multiplicities), and it is idempotent. -/
theorem filter_messages_by_user_spec (M : List SlackMessage) (U : String) :
    (filter_messages_by_user M U).Sublist M
    ∧ (∀ m, m ∈ filter_messages_by_user M U ↔ m ∈ M ∧ m.user = some U)
    ∧ (∀ m, m.user = some U →
        (filter_messages_by_user M U).count m = M.count m)
    ∧ (∀ m, m.user ≠ some U → (filter_messages_by_user M U).count m = 0)
    ∧ filter_messages_by_user (filter_messages_by_user M U) U
        = filter_messages_by_user M U := by
  refine ⟨List.filter_sublist M, ?_, ?_, ?_, ?_⟩
  · intro m
    simp [filter_messages_by_user, List.mem_filter]
  · intro m hm
    exact List.count_filter (by simp [hm])
  · intro m hm
    rw [List.count_eq_zero]
    simp [filter_messages_by_user, List.mem_filter, hm]
  · simp [filter_messages_by_user, List.filter_filter]

/-- Witness for C4 on a concrete four-message list with duplicates. -/
theorem filter_messages_by_user_witness :
    (filter_messages_by_user
        [⟨some "U1", some "a", some "1"⟩, ⟨none, some "b", some "2"⟩,
         ⟨some "U2", some "c", some "3"⟩, ⟨some "U1", some "a", some "1"⟩] "U1").Sublist
      [⟨some "U1", some "a", some "1"⟩, ⟨none, some "b", some "2"⟩,
       ⟨some "U2", some "c", some "3"⟩, ⟨some "U1", some "a", some "1"⟩]
    ∧ (filter_messages_by_user
        [⟨some "U1", some "a", some "1"⟩, ⟨none, some "b", some "2"⟩,
         ⟨some "U2", some "c", some "3"⟩, ⟨some "U1", some "a", some "1"⟩] "U1").count
        ⟨some "U1", some "a", some "1"⟩ = 2
    ∧ filter_messages_by_user (filter_messages_by_user
        [⟨some "U1", some "a", some "1"⟩, ⟨none, some "b", some "2"⟩,
         ⟨some "U2", some "c", some "3"⟩, ⟨some "U1", some "a", some "1"⟩] "U1") "U1"
      = filter_messages_by_user
        [⟨some "U1", some "a", some "1"⟩, ⟨none, some "b", some "2"⟩,
         ⟨some "U2", some "c", some "3"⟩, ⟨some "U1", some "a", some "1"⟩] "U1" :=
  ⟨(filter_messages_by_user_spec _ "U1").1,
   by
    have h := (filter_messages_by_user_spec
      [⟨some "U1", some "a", some "1"⟩, ⟨none, some "b", some "2"⟩,
       ⟨some "U2", some "c", some "3"⟩, ⟨some "U1", some "a", some "1"⟩] "U1").2.2.1
      ⟨some "U1", some "a", some "1"⟩ (by decide)
    rw [h]
    decide,
   (filter_messages_by_user_spec _ "U1").2.2.2.2⟩

/-- C10: a message lacking the user field is never in the output of
filter_messages_by_user, for every input list and every target author. -/
theorem filter_messages_by_user_no_authorless (M : List SlackMessage) (U : String)
    (m : SlackMessage) (h : m ∈ filter_messages_by_user M U) : m.user ≠ none := by
  rw [filter_messages_by_user, List.mem_filter] at h
  have h2 := h.2
  simp only [decide_eq_true_eq] at h2
  rw [h2]
  simp

/-- Witness for C10 on a concrete filtered list. -/
theorem filter_messages_by_user_no_authorless_witness :
    (⟨some "U1", some "a", some "1"⟩ : SlackMessage).user ≠ none :=
  filter_messages_by_user_no_authorless
    [⟨some "U1", some "a", some "1"⟩, ⟨none, some "b", some "2"⟩] "U1"
    ⟨some "U1", some "a", some "1"⟩ (by decide)

/-- C8: rendering the epoch second 1609459200 yields a 19-character string
of the YYYY-MM-DD HH:MM:SS shape under any real-world local timezone
offset, and any string float() rejects is returned unchanged rather than
failing. -/
theorem timestamp_to_readable_spec :
    (∀ localOffset : Int, -50400 ≤ localOffset → localOffset ≤ 50400 →
      (timestamp_to_readable localOffset (PyValue.num 1609459200)).length = 19
      ∧ isDatetimeShape (timestamp_to_readable localOffset (PyValue.num 1609459200)) = true)
    ∧ (∀ (localOffset : Int) (s : String), pyFloatFloor s = none →
        timestamp_to_readable localOffset (PyValue.str s) = s) := by
  constructor
  · intro localOffset _ _
    exact ⟨formatDatetime_length _ _ _ _ _ _, isDatetimeShape_format _ _ _ _ _ _⟩
  · intro localOffset s h
    simp [timestamp_to_readable, h]

/-- Witness for C8 at offset 0 (UTC) and at the string from the claim. -/
theorem timestamp_to_readable_witness :
    (timestamp_to_readable 0 (PyValue.num 1609459200)).length = 19
    ∧ isDatetimeShape (timestamp_to_readable 0 (PyValue.num 1609459200)) = true
    ∧ timestamp_to_readable 0 (PyValue.str "invalid") = "invalid" :=
  ⟨(timestamp_to_readable_spec.1 0 (by decide) (by decide)).1,
   (timestamp_to_readable_spec.1 0 (by decide) (by decide)).2,
   timestamp_to_readable_spec.2 0 "invalid" (by decide)⟩

/-- C7: save_messages_to_file with an empty list performs no write and
gives the nothing-to-save notice for any filename, author and file-system
behavior; with a non-empty list and author U1 it writes the messages to the
author-prefixed filename; and a failing write is reported with its cause,
once, without raising. -/
theorem save_messages_to_file_spec :
    (∀ (filename : String) (user_id : Option String) (w : Option String),
      save_messages_to_file [] filename user_id w
        = SaveOutcome.noSave "保存するメッセージがありません。")
    ∧ (∀ (messages : List SlackMessage) (filename : String),
        messages ≠ [] →
        save_messages_to_file messages filename (some "U1") none
          = SaveOutcome.saved ("U1_" ++ filename) messages
              ("メッセージを " ++ ("U1_" ++ filename) ++ " に保存しました。"))
    ∧ (∀ (messages : List SlackMessage) (filename : String) (user_id : Option String)
        (e : String), messages ≠ [] →
        save_messages_to_file messages filename user_id (some e)
          = SaveOutcome.failed ("ファイル保存エラー: " ++ e)) := by
  refine ⟨?_, ?_, ?_⟩
  · intro filename user_id w
    simp [save_messages_to_file]
  · intro messages filename hne
    have h : messages.isEmpty = false := by
      cases messages with
      | nil => exact absurd rfl hne
      | cons a l => rfl
    have hu : ("U1" : String).isEmpty = false := rfl
    simp [save_messages_to_file, h, effectiveFilename, truthyStr, hu]
  · intro messages filename user_id e hne
    have h : messages.isEmpty = false := by
      cases messages with
      | nil => exact absurd rfl hne
      | cons a l => rfl
    simp [save_messages_to_file, h]

/-- Witness for C7 at the inputs of the claim. -/
theorem save_messages_to_file_witness :
    save_messages_to_file [] "out.json" (some "U1") none
      = SaveOutcome.noSave "保存するメッセージがありません。"
    ∧ save_messages_to_file [⟨some "U1", some "a", some "1"⟩] "out.json" (some "U1") none
      = SaveOutcome.saved "U1_out.json" [⟨some "U1", some "a", some "1"⟩]
          "メッセージを U1_out.json に保存しました。"
    ∧ save_messages_to_file [⟨some "U1", some "a", some "1"⟩] "out.json" none
        (some "disk full")
      = SaveOutcome.failed "ファイル保存エラー: disk full" :=
  ⟨save_messages_to_file_spec.1 "out.json" (some "U1") none,
   save_messages_to_file_spec.2.1 [⟨some "U1", some "a", some "1"⟩] "out.json"
     (by decide),
   save_messages_to_file_spec.2.2 [⟨some "U1", some "a", some "1"⟩] "out.json" none
     "disk full" (by decide)⟩

/-- C3: the transmitted search count is the requested count clamped to
1000 and the transmitted history limit is the requested limit clamped to
200; at the documented maxima the clamp fires (5000 becomes 1000, 500
becomes 200), and any request at or below the maximum passes through
unchanged. -/
theorem size_clamp_spec (ch u : String) (a b o l : Option String) :
    (mkSearchParams ch u 5000 a b).count = 1000
    ∧ (mkHistoryParams ch 500 o l).limit = 200
    ∧ (∀ n : Int, n ≤ 1000 → (mkSearchParams ch u n a b).count = n)
    ∧ (∀ n : Int, n ≤ 200 → (mkHistoryParams ch n o l).limit = n) := by
  refine ⟨?_, ?_, ?_, ?_⟩
  · simp [mkSearchParams]
  · simp [mkHistoryParams]
  · intro n hn
    simp [mkSearchParams, min_eq_left hn]
  · intro n hn
    simp [mkHistoryParams, min_eq_left hn]

/-- Witness for C3 at the concrete sizes of the claim. -/
theorem size_clamp_witness :
    (mkSearchParams "C1" "U1" 5000 none none).count = 1000
    ∧ (mkHistoryParams "C1" 500 none none).limit = 200
    ∧ (mkSearchParams "C1" "U1" 1000 none none).count = 1000
    ∧ (mkHistoryParams "C1" 100 none none).limit = 100 :=
  ⟨(size_clamp_spec "C1" "U1" none none none none).1,
   (size_clamp_spec "C1" "U1" none none none none).2.1,
   (size_clamp_spec "C1" "U1" none none none none).2.2.1 1000 (by decide),
   (size_clamp_spec "C1" "U1" none none none none).2.2.2 100 (by decide)⟩

/-- A non-empty string is truthy as a cursor. -/
theorem isEmpty_false_of_ne (c : String) (h : c ≠ "") : c.isEmpty = false := by
  cases hc : c.isEmpty
  · rfl
  · exact absurd ((String.isEmpty_iff c).mp hc) h

/-- Running the history loop across a prefix of ok pages that all satisfy
the continuation condition appends their messages to the accumulator and
adds one answered request per page. -/
theorem historyLoop_ok_prefix (g : Bool) (ps : List HistoryPage)
    (rest : List (HttpResult HistoryPage)) (acc : List SlackMessage)
    (hps : ∀ q ∈ ps, q.ok = true ∧ (g && q.has_more && cursorTruthy q.next_cursor) = true) :
    historyLoop g (ps.map HttpResult.success ++ rest) acc
      = ((historyLoop g rest (acc ++ (ps.map HistoryPage.messages).flatten)).1,
         (historyLoop g rest (acc ++ (ps.map HistoryPage.messages).flatten)).2 + ps.length) := by
  revert hps
  induction ps generalizing acc with
  | nil => intro _; simp
  | cons p ps ih =>
    intro hps
    have hp := hps p (List.mem_cons_self p ps)
    have hih := ih (acc ++ p.messages) (fun q hq => hps q (List.mem_cons_of_mem p hq))
    have step : historyLoop g (HttpResult.success p :: (ps.map HttpResult.success ++ rest)) acc
        = ((historyLoop g (ps.map HttpResult.success ++ rest) (acc ++ p.messages)).1,
           (historyLoop g (ps.map HttpResult.success ++ rest) (acc ++ p.messages)).2 + 1) := by
      simp [historyLoop, hp.1, hp.2]
    rw [List.map_cons, List.cons_append, step, hih]
    simp [List.append_assoc, Nat.add_assoc]

/-- C1: on a two-page transcript whose first page is ok with more pages and
a non-empty cursor and whose second page is ok without more pages,
get_conversation_history with get_all issues exactly two requests and
returns page one's messages followed by page two's; without get_all it
issues exactly one request and returns page one's messages only. In
general the loop leaves a successful page for another request exactly when
get_all AND has_more AND a truthy cursor all hold. -/
theorem get_conversation_history_pagination
    (p1 p2 : HistoryPage) (c : String)
    (h1 : p1.ok = true) (hm1 : p1.has_more = true)
    (hc : p1.next_cursor = some c) (hcne : c ≠ "")
    (h2 : p2.ok = true) (hm2 : p2.has_more = false) :
    get_conversation_history [HttpResult.success p1, HttpResult.success p2] true
      = (FetchOutcome.returned (p1.messages ++ p2.messages), 2)
    ∧ get_conversation_history [HttpResult.success p1, HttpResult.success p2] false
      = (FetchOutcome.returned p1.messages, 1)
    ∧ (∀ (g : Bool) (p : HistoryPage) (rest : List (HttpResult HistoryPage))
        (acc : List SlackMessage), p.ok = true →
        (g && p.has_more && cursorTruthy p.next_cursor) = false →
        historyLoop g (HttpResult.success p :: rest) acc
          = (FetchOutcome.returned (acc ++ p.messages), 1))
    ∧ (∀ (g : Bool) (p : HistoryPage) (rest : List (HttpResult HistoryPage))
        (acc : List SlackMessage), p.ok = true →
        (g && p.has_more && cursorTruthy p.next_cursor) = true →
        historyLoop g (HttpResult.success p :: rest) acc
          = ((historyLoop g rest (acc ++ p.messages)).1,
             (historyLoop g rest (acc ++ p.messages)).2 + 1)) := by
  have hct : cursorTruthy p1.next_cursor = true := by
    rw [hc]
    simp [cursorTruthy, isEmpty_false_of_ne c hcne]
  refine ⟨?_, ?_, ?_, ?_⟩
  · simp [get_conversation_history, historyLoop, h1, hm1, hct, h2, hm2]
  · simp [get_conversation_history, historyLoop, h1]
  · intro g p rest acc hok hcond
    simp [historyLoop, hok, hcond]
  · intro g p rest acc hok hcond
    simp [historyLoop, hok, hcond]

/-- Witness for C1 on the concrete two-page transcript of the spec, with
cursor "cursor123". -/
theorem get_conversation_history_pagination_witness :
    get_conversation_history
        [HttpResult.success ⟨true, none, [⟨some "U1", some "a", some "1"⟩,
           ⟨some "U2", some "b", some "2"⟩], true, some "cursor123"⟩,
         HttpResult.success ⟨true, none, [⟨some "U1", some "c", some "3"⟩], false, none⟩]
        true
      = (FetchOutcome.returned ([⟨some "U1", some "a", some "1"⟩,
           ⟨some "U2", some "b", some "2"⟩] ++ [⟨some "U1", some "c", some "3"⟩]), 2)
    ∧ get_conversation_history
        [HttpResult.success ⟨true, none, [⟨some "U1", some "a", some "1"⟩,
           ⟨some "U2", some "b", some "2"⟩], true, some "cursor123"⟩,
         HttpResult.success ⟨true, none, [⟨some "U1", some "c", some "3"⟩], false, none⟩]
        false
      = (FetchOutcome.returned [⟨some "U1", some "a", some "1"⟩,
           ⟨some "U2", some "b", some "2"⟩], 1) :=
  ⟨(get_conversation_history_pagination
      ⟨true, none, [⟨some "U1", some "a", some "1"⟩, ⟨some "U2", some "b", some "2"⟩],
        true, some "cursor123"⟩
      ⟨true, none, [⟨some "U1", some "c", some "3"⟩], false, none⟩
      "cursor123" rfl rfl rfl (by decide) rfl rfl).1,
   (get_conversation_history_pagination
      ⟨true, none, [⟨some "U1", some "a", some "1"⟩, ⟨some "U2", some "b", some "2"⟩],
        true, some "cursor123"⟩
      ⟨true, none, [⟨some "U1", some "c", some "3"⟩], false, none⟩
      "cursor123" rfl rfl rfl (by decide) rfl rfl).2.1⟩

/-- C2: a response with ok=false makes get_conversation_history raise a
SlackAPIError even when any number of earlier pages already succeeded (the
accumulated messages are discarded, never returned), and makes
search_user_messages raise likewise. -/
theorem api_error_raised (g : Bool) (ps : List HistoryPage) (p : HistoryPage)
    (rest : List (HttpResult HistoryPage)) (sp : SearchPage)
    (hps : ∀ q ∈ ps, q.ok = true ∧ (g && q.has_more && cursorTruthy q.next_cursor) = true)
    (hp : p.ok = false) (hsp : sp.ok = false) :
    get_conversation_history (ps.map HttpResult.success ++ (HttpResult.success p :: rest)) g
      = (FetchOutcome.raised ⟨"Slack API Error: " ++ errMsgOf p.error, none⟩, ps.length + 1)
    ∧ search_user_messages (HttpResult.success sp)
      = (FetchOutcome.raised ⟨"Slack Search API Error: " ++ errMsgOf sp.error, none⟩, 1) := by
  constructor
  · rw [get_conversation_history, historyLoop_ok_prefix g ps _ [] hps]
    simp [historyLoop, hp, Nat.add_comm]
  · simp [search_user_messages, hsp]

/-- Witness for C2: one successful page followed by a missing_scope
failure, and a missing_scope search failure. -/
theorem api_error_raised_witness :
    get_conversation_history
        (([⟨true, none, [⟨some "U1", some "a", some "1"⟩], true, some "cursor123"⟩] :
            List HistoryPage).map HttpResult.success
          ++ (HttpResult.success ⟨false, some "missing_scope", [], false, none⟩ :: []))
        true
      = (FetchOutcome.raised ⟨"Slack API Error: missing_scope", none⟩, 2)
    ∧ search_user_messages (HttpResult.success ⟨false, some "missing_scope", []⟩)
      = (FetchOutcome.raised ⟨"Slack Search API Error: missing_scope", none⟩, 1) := by
  have h := api_error_raised true
    [⟨true, none, [⟨some "U1", some "a", some "1"⟩], true, some "cursor123"⟩]
    ⟨false, some "missing_scope", [], false, none⟩ []
    ⟨false, some "missing_scope", []⟩ (by decide) rfl rfl
  exact ⟨h.1.trans (by decide), h.2.trans (by decide)⟩

/-- C6: a transport failure or a malformed (non-JSON) body at any point of
either operation is translated into a raised SlackAPIError that preserves
the underlying cause, and no raw exception or partial result escapes. -/
theorem transport_error_translated (g : Bool) (ps : List HistoryPage)
    (rest : List (HttpResult HistoryPage)) (e : String)
    (hps : ∀ q ∈ ps, q.ok = true ∧ (g && q.has_more && cursorTruthy q.next_cursor) = true) :
    get_conversation_history
        (ps.map HttpResult.success ++ (HttpResult.transportError e :: rest)) g
      = (FetchOutcome.raised ⟨"HTTP Error: " ++ e, some e⟩, ps.length + 1)
    ∧ get_conversation_history
        (ps.map HttpResult.success ++ (HttpResult.decodeError e :: rest)) g
      = (FetchOutcome.raised ⟨"JSON Decode Error: " ++ e, some e⟩, ps.length + 1)
    ∧ search_user_messages (HttpResult.transportError e)
      = (FetchOutcome.raised ⟨"HTTP Error: " ++ e, some e⟩, 1)
    ∧ search_user_messages (HttpResult.decodeError e)
      = (FetchOutcome.raised ⟨"JSON Decode Error: " ++ e, some e⟩, 1) := by
  refine ⟨?_, ?_, ?_, ?_⟩
  · rw [get_conversation_history, historyLoop_ok_prefix g ps _ [] hps]
    simp [historyLoop, Nat.add_comm]
  · rw [get_conversation_history, historyLoop_ok_prefix g ps _ [] hps]
    simp [historyLoop, Nat.add_comm]
  · simp [search_user_messages]
  · simp [search_user_messages]

/-- Witness for C6: a timeout after one successful page, and a decode
failure on a search request. -/
theorem transport_error_translated_witness :
    get_conversation_history
        (([⟨true, none, [⟨some "U1", some "a", some "1"⟩], true, some "cursor123"⟩] :
            List HistoryPage).map HttpResult.success
          ++ (HttpResult.transportError "Connection timed out" :: []))
        true
      = (FetchOutcome.raised
          ⟨"HTTP Error: Connection timed out", some "Connection timed out"⟩, 2)
    ∧ search_user_messages (HttpResult.decodeError "Expecting value")
      = (FetchOutcome.raised ⟨"JSON Decode Error: Expecting value", some "Expecting value"⟩, 1) := by
  have h := transport_error_translated true
    [⟨true, none, [⟨some "U1", some "a", some "1"⟩], true, some "cursor123"⟩]
    [] "Connection timed out" (by decide)
  refine ⟨h.1.trans (by decide), ?_⟩
  have h2 := transport_error_translated true [] [] "Expecting value" (by decide)
  exact h2.2.2.2
